import Mathlib

/-!
# AML transaction-triage pipeline: shallow embedding and verification

This file embeds the core of the AML (anti-money-laundering) triage
repository in Lean 4 and settles the specification claims against it.

Conventions of the embedding:
* Python floats are modelled as rationals (`ℚ`); machine reals never
  overflow in the fragments embedded here.
* Python dictionaries holding transactions are modelled by a `Transaction`
  structure whose optionally-present keys (`dict.get(key, default)`) are
  `Option`-typed fields; the report dictionary, whose exact key set matters,
  is modelled as an association list.
* Fallible calls (model scoring, the narrative-generation endpoint) are
  modelled with `Except String`; a Python `try/except` block is a `match`
  on that `Except`.
* The MongoDB collections are modelled as lists of documents in insertion
  order; `find` is `filter`, `sort(..., DESCENDING)` is a sort by the
  timestamp field descending, `limit` is `take`, `update_one` updates the
  first match, `insert_one`/`insert_many` append.
-/

namespace AML

/-- A stored transaction document.  Fields mirror the CSV/Mongo keys used by
the source: `_id`, `Account`, `Account.1`, `From Bank`, `To Bank`,
`Amount Received`, `Amount Paid`, `Payment Format`, `Receiving Currency`,
`Payment Currency`, `Timestamp`, `processed`.  Keys that the source reads
with `dict.get(key, default)` are `Option`-typed (absent key = `none`). -/
structure Transaction where
  id : String
  account : Option String
  accountDest : Option String
  fromBank : Option String
  toBank : Option String
  amountReceived : Option ℚ
  amountPaid : Option ℚ
  paymentFormat : Option String
  receivingCurrency : Option String
  paymentCurrency : Option String
  timestamp : Option String
  processed : Bool
  deriving DecidableEq, Repr

/-! ## Feature codec (`agents/transaction_monitor.py`) -/

/-- `encode_payment_format` of `TransactionMonitorAgent`: uppercase the
payment-format string and look it up in the fixed mapping, defaulting to 0. -/
def encode_payment_format (pf : String) : ℤ :=
  let u := pf.toUpper
  if u = "WIRE" then 1
  else if u = "ACH" then 2
  else if u = "CHECK" then 3
  else if u = "CASH" then 4
  else if u = "CRYPTO" then 5
  else if u = "CARD" then 6
  else if u = "TRANSFER" then 7
  else 0

/-- Whether `pat` occurs as a contiguous run at the head of `l`
(the character-list form of Python's `str.startswith`). -/
def listLeads : List Char → List Char → Bool
  | [], _ => true
  | _ :: _, [] => false
  | a :: as, b :: bs => a == b && listLeads as bs

/-- Whether `pat` occurs as a contiguous run anywhere in `l`
(the character-list form of Python's `needle in haystack`). -/
def listOccurs (pat : List Char) : List Char → Bool
  | [] => pat.isEmpty
  | b :: bs => listLeads pat (b :: bs) || listOccurs pat bs

/-- Python's `needle in haystack` on strings. -/
def strOccurs (needle hay : String) : Bool :=
  listOccurs needle.data hay.data

/-- `calculate_bank_risk_score`: 0.8 when the lowercased bank name contains
one of the high-risk keywords, else 0.3. -/
def calculate_bank_risk_score (bank : String) : ℚ :=
  let b := bank.toLower
  if ["offshore", "private", "anonymous", "crypto"].any
      (fun k => strOccurs k b) then
    (8 : ℚ) / 10
  else
    (3 : ℚ) / 10

/-- A parsed calendar timestamp (year, month, day, hour), the part of a
Python `datetime` the codec reads (`dt.hour` and `dt.weekday()`). -/
structure ParsedTime where
  year : ℕ
  month : ℕ
  day : ℕ
  hour : ℕ
  deriving DecidableEq, Repr

/-- Digit value of a character, if it is a decimal digit. -/
def digitVal (c : Char) : Option ℕ :=
  if c.isDigit then some (c.toNat - 48) else none

/-- Modelled from the source's use of `datetime.fromisoformat` (a Python
standard-library call): positional parse of an ISO-8601 timestamp
`YYYY-MM-DD{T| }HH:MM:SS...`, validating digit positions, separators, and
field ranges; anything malformed is `none` (Python raises `ValueError`,
which the codec's `try/except` turns into the default). The trailing
timezone suffix (`Z` is first rewritten to `+00:00` by the source) does not
affect the fields read and is ignored here. -/
def parseIsoTimestamp (ts : String) : Option ParsedTime :=
  let cs := ts.data
  match cs.get? 0, cs.get? 1, cs.get? 2, cs.get? 3, cs.get? 4,
        cs.get? 5, cs.get? 6, cs.get? 7, cs.get? 8, cs.get? 9,
        cs.get? 10, cs.get? 11, cs.get? 12, cs.get? 13, cs.get? 14,
        cs.get? 15, cs.get? 16, cs.get? 17, cs.get? 18 with
  | some y0, some y1, some y2, some y3, some s1,
    some m0, some m1, some s2, some d0, some d1,
    some sep, some h0, some h1, some s3, some n0,
    some n1, some s4, some e0, some e1 =>
    match digitVal y0, digitVal y1, digitVal y2, digitVal y3,
          digitVal m0, digitVal m1, digitVal d0, digitVal d1,
          digitVal h0, digitVal h1, digitVal n0, digitVal n1,
          digitVal e0, digitVal e1 with
    | some a, some b, some c, some d,
      some mA, some mB, some dA, some dB,
      some hA, some hB, some nA, some nB,
      some eA, some eB =>
      let year := 1000 * a + 100 * b + 10 * c + d
      let month := 10 * mA + mB
      let day := 10 * dA + dB
      let hour := 10 * hA + hB
      let minute := 10 * nA + nB
      let second := 10 * eA + eB
      if s1 = '-' ∧ s2 = '-' ∧ (sep = 'T' ∨ sep = ' ') ∧ s3 = ':' ∧ s4 = ':'
          ∧ 1 ≤ month ∧ month ≤ 12 ∧ 1 ≤ day ∧ day ≤ 31
          ∧ hour ≤ 23 ∧ minute ≤ 59 ∧ second ≤ 59 then
        some ⟨year, month, day, hour⟩
      else
        none
    | _, _, _, _, _, _, _, _, _, _, _, _, _, _ => none
  | _, _, _, _, _, _, _, _, _, _, _, _, _, _, _, _, _, _, _ => none

/-- Day count of a civil date from the epoch 0000-03-01 (March-based year
shift), used to compute the weekday exactly as a calendar library would. -/
def civilDayNumber (year month day : ℕ) : ℕ :=
  let ys := if month ≤ 2 then year - 1 else year
  let ms := if month ≤ 2 then month + 9 else month - 3
  365 * ys + ys / 4 - ys / 100 + ys / 400 + (153 * ms + 2) / 5 + day - 1

/-- Modelled from the source's use of `datetime.weekday` (Python standard
library): Monday = 0 … Sunday = 6, computed from the civil day number. -/
def weekdayOf (t : ParsedTime) : ℕ :=
  (civilDayNumber t.year t.month t.day + 2) % 7

/-- `extract_hour_from_timestamp`: parse the timestamp and read the hour;
any parse failure defaults to 12 (noon). -/
def extract_hour_from_timestamp (ts : String) : ℤ :=
  match parseIsoTimestamp ts with
  | some t => (t.hour : ℤ)
  | none => 12

/-- `extract_day_of_week_from_timestamp`: `weekday() + 1` (1 = Monday,
7 = Sunday); any parse failure defaults to 1 (Monday). -/
def extract_day_of_week_from_timestamp (ts : String) : ℤ :=
  match parseIsoTimestamp ts with
  | some t => (weekdayOf t : ℤ) + 1
  | none => 1

/-- `prepare_transaction_for_ml` of `TransactionMonitorAgent`: the ML
feature list built from one transaction, in source order — amount received,
amount paid, payment-format code, origin-bank risk, destination-bank risk,
hour, day-of-week, and the currency-mismatch flag. -/
def prepare_transaction_for_ml (tx : Transaction) : List ℚ :=
  [ tx.amountReceived.getD 0,
    tx.amountPaid.getD 0,
    ((encode_payment_format (tx.paymentFormat.getD "") : ℤ) : ℚ),
    calculate_bank_risk_score (tx.fromBank.getD ""),
    calculate_bank_risk_score (tx.toBank.getD ""),
    ((extract_hour_from_timestamp (tx.timestamp.getD "") : ℤ) : ℚ),
    ((extract_day_of_week_from_timestamp (tx.timestamp.getD "") : ℤ) : ℚ),
    if tx.receivingCurrency.getD "" ≠ tx.paymentCurrency.getD "" then 1 else 0 ]

/-! ## Classifier adapter (`agents/ml_detector.py`) -/

/-- The dictionary returned by `predict_money_laundering`: keys
`is_laundering`, `confidence`, and either `prediction_value` (success) or
`error` (failure). -/
structure Verdict where
  is_laundering : Bool
  confidence : ℚ
  prediction_value : Option ℤ
  error : Option String
  deriving DecidableEq, Repr

/-- The opaque loaded model.  `predict` stands for
`self.model.predict(features_array)[0]` (any exception it raises, including
an empty result array, is the `Except.error` case); `predictProba` is
`some` exactly when `hasattr(self.model, 'predict_proba')`. -/
structure MLModel where
  predict : List ℚ → Except String ℤ
  predictProba : Option (List ℚ → Except String (List ℚ))

/-- The length normalization inside `predict_money_laundering`: pad with
zeros below 7 features, truncate above 7. -/
def normalizeFeatures (fs : List ℚ) : List ℚ :=
  if fs.length = 7 then fs
  else if fs.length < 7 then fs ++ List.replicate (7 - fs.length) 0
  else fs.take 7

/-- The body of `predict_money_laundering`'s `try` block: normalize the
features, predict, derive the confidence (max posterior when
`predict_proba` exists — `max` of an empty sequence raises; otherwise the
inner `try`'s `predict_proba` call raises `AttributeError`, caught by the
bare `except`, giving the fixed fallback 0.8/0.2), and assemble the
success dictionary. -/
def scoreBody (m : MLModel) (features : List ℚ) : Except String Verdict :=
  match m.predict (normalizeFeatures features) with
  | Except.error e => Except.error e
  | Except.ok prediction =>
    let conf : Except String ℚ :=
      match m.predictProba with
      | some pp =>
        match pp (normalizeFeatures features) with
        | Except.error e => Except.error e
        | Except.ok ps =>
          match ps.max? with
          | some c => Except.ok c
          | none => Except.error "max() arg is an empty sequence"
      | none => Except.ok (if prediction = 1 then (8 : ℚ) / 10 else (2 : ℚ) / 10)
    match conf with
    | Except.error e => Except.error e
    | Except.ok confidence =>
      Except.ok
        { is_laundering := prediction = 1, confidence := confidence,
          prediction_value := some prediction, error := none }

/-- `predict_money_laundering` of `MLDetectorAgent`: the model-not-loaded
guard, then the `try` body with every exception converted into an
error dictionary with `is_laundering = False`, `confidence = 0.0`. -/
def predict_money_laundering (model : Option MLModel) (features : List ℚ) :
    Verdict :=
  match model with
  | none =>
    { is_laundering := false, confidence := 0, prediction_value := none,
      error := some "Model not loaded" }
  | some m =>
    match scoreBody m features with
    | Except.ok v => v
    | Except.error e =>
      { is_laundering := false, confidence := 0, prediction_value := none,
        error := some e }

/-- A model whose scoring call always raises, used to exercise the
exception path of the classifier adapter. -/
def throwingModel : MLModel :=
  { predict := fun _ => Except.error "boom", predictProba := none }

/-- A successful run of the `try` body never sets the `error` key. -/
lemma scoreBody_ok_error_none (m : MLModel) (fs : List ℚ) (v : Verdict)
    (h : scoreBody m fs = Except.ok v) : v.error = none := by
  cases hp : m.predict (normalizeFeatures fs) with
  | error e => simp [scoreBody, hp] at h
  | ok p =>
    cases hpp : m.predictProba with
    | none =>
      simp [scoreBody, hp, hpp] at h
      simp [← h]
    | some pp =>
      cases hps : pp (normalizeFeatures fs) with
      | error e => simp [scoreBody, hp, hpp, hps] at h
      | ok ps =>
        cases hmx : ps.max? with
        | none => simp [scoreBody, hp, hpp, hps, hmx] at h
        | some c =>
          simp [scoreBody, hp, hpp, hps, hmx] at h
          simp [← h]

/-! ## Store operations (`database/mongo_handler.py`)

The `transactions` collection is a list of documents in insertion order;
the `sar_reports` collection is a list of report dictionaries. -/

/-- A value in a report dictionary: a string or a number. -/
inductive BVal where
  | s : String → BVal
  | q : ℚ → BVal
  deriving DecidableEq, Repr

/-- A report document, dictionary-shaped as in the source. -/
abbrev SarDoc := List (String × BVal)

/-- The two MongoDB collections used by the pipeline. -/
structure Store where
  transactions : List Transaction
  sarReports : List SarDoc
  deriving DecidableEq, Repr

/-- `get_unprocessed_transactions`: `find({"processed": False}).limit(limit)`
— the unprocessed transactions in insertion order, at most `limit` of them. -/
def get_unprocessed_transactions (txs : List Transaction) (limit : ℕ) :
    List Transaction :=
  (txs.filter fun t => t.processed = false).take limit

/-- `mark_transaction_processed`: `update_one({"_id": ...}, {"$set":
{"processed": True}})` — set the `processed` flag on the first document
whose identifier matches (`update_one` updates at most one document; a
missing identifier matches nothing and raises no error). -/
def mark_transaction_processed : List Transaction → String → List Transaction
  | [], _ => []
  | t :: ts, i =>
    if t.id = i then { t with processed := true } :: ts
    else t :: mark_transaction_processed ts i

/-- MongoDB's ascending order on the `Timestamp` field restricted to the
values the pipeline stores (strings; a document missing the field sorts
below every string). -/
def tsLe (a b : Option String) : Bool :=
  match a, b with
  | none, _ => true
  | some _, none => false
  | some x, some y => decide (x ≤ y)

/-- Insert a transaction into a list that is sorted by timestamp
descending, keeping it sorted. -/
def insertDesc (t : Transaction) : List Transaction → List Transaction
  | [] => [t]
  | u :: us =>
    if tsLe u.timestamp t.timestamp then t :: u :: us
    else u :: insertDesc t us

/-- `sort("Timestamp", DESCENDING)`: sort by timestamp, most recent
first. -/
def sortDesc : List Transaction → List Transaction
  | [] => []
  | t :: ts => insertDesc t (sortDesc ts)

/-- `get_account_transactions`: `find({"Account": account_id})
.sort("Timestamp", DESCENDING).limit(limit)`. -/
def get_account_transactions (txs : List Transaction) (accountId : String)
    (limit : ℕ) : List Transaction :=
  (sortDesc (txs.filter fun t => t.account = some accountId)).take limit

/-- `save_sar_report`: `insert_one` the report document and return the
string form of the store-assigned identifier (modelled as a counter over
the collection size). -/
def save_sar_report (reports : List SarDoc) (d : SarDoc) :
    List SarDoc × String :=
  (reports ++ [d], "OID" ++ toString reports.length)

/-- The per-record stamping loop of `load_csv_to_mongo`: record `i` gets
`processed = False` and its `Timestamp` key overwritten with the value of
the ingestion-time clock at iteration `i`
(`datetime.utcnow().isoformat() + "Z"`, modelled as `clock i`). -/
def stampFrom (clock : ℕ → String) : ℕ → List Transaction → List Transaction
  | _, [] => []
  | i, r :: rs =>
    { r with processed := false, timestamp := some (clock i) }
      :: stampFrom clock (i + 1) rs

/-- `load_csv_to_mongo`: read the CSV records, stamp each with
`processed = False` and the ingestion-time timestamp, `insert_many` them
(append in order), and return the inserted count.  The store-assigned
`_id` of each record is modelled as carried in the record itself. -/
def load_csv_to_mongo (store : Store) (records : List Transaction)
    (clock : ℕ → String) : Store × ℕ :=
  let stamped := stampFrom clock 0 records
  ({ store with transactions := store.transactions ++ stamped },
   stamped.length)

/-! ### Order facts about the descending timestamp sort -/

lemma tsLe_total (a b : Option String) : tsLe a b = true ∨ tsLe b a = true := by
  cases a with
  | none => left; rfl
  | some x =>
    cases b with
    | none => right; rfl
    | some y =>
      rcases le_total x y with h | h
      · left; simp [tsLe, h]
      · right; simp [tsLe, h]

lemma tsLe_trans {a b c : Option String} (h1 : tsLe a b = true)
    (h2 : tsLe b c = true) : tsLe a c = true := by
  cases a with
  | none => rfl
  | some x =>
    cases b with
    | none => simp [tsLe] at h1
    | some y =>
      cases c with
      | none => simp [tsLe] at h2
      | some z =>
        simp only [tsLe, decide_eq_true_eq] at h1 h2 ⊢
        exact le_trans h1 h2

/-- The relation "`a` is at least as recent as `b`" used to state
most-recent-first order. -/
def moreRecent (a b : Transaction) : Prop := tsLe b.timestamp a.timestamp = true

lemma mem_insertDesc {t x : Transaction} {l : List Transaction}
    (h : x ∈ insertDesc t l) : x = t ∨ x ∈ l := by
  induction l with
  | nil => simpa [insertDesc] using h
  | cons u us ih =>
    by_cases hc : tsLe u.timestamp t.timestamp = true
    · simpa [insertDesc, hc] using h
    · simp only [insertDesc, hc, if_neg, Bool.not_eq_true] at h
      rcases List.mem_cons.mp h with h | h
      · right; exact h ▸ List.mem_cons_self u us
      · rcases ih h with h | h
        · left; exact h
        · right; exact List.mem_cons_of_mem u h

lemma pairwise_insertDesc {t : Transaction} {l : List Transaction}
    (h : l.Pairwise moreRecent) :
    (insertDesc t l).Pairwise moreRecent := by
  induction l with
  | nil => simp [insertDesc, List.pairwise_singleton]
  | cons u us ih =>
    rcases List.pairwise_cons.mp h with ⟨hu, hus⟩
    by_cases hc : tsLe u.timestamp t.timestamp = true
    · simp only [insertDesc, hc, if_pos]
      refine List.pairwise_cons.mpr ⟨?_, h⟩
      intro w hw
      rcases List.mem_cons.mp hw with hw | hw
      · exact hw ▸ hc
      · exact tsLe_trans (hu w hw) hc
    · simp only [insertDesc, hc, if_neg, Bool.not_eq_true]
      refine List.pairwise_cons.mpr ⟨?_, ih hus⟩
      intro w hw
      rcases mem_insertDesc hw with hw | hw
      · rw [hw]
        rcases tsLe_total u.timestamp t.timestamp with hx | hx
        · exact absurd hx hc
        · exact hx
      · exact hu w hw

lemma pairwise_sortDesc (l : List Transaction) :
    (sortDesc l).Pairwise moreRecent := by
  induction l with
  | nil => simp [sortDesc]
  | cons t ts ih => exact pairwise_insertDesc ih

/-! ## Report assembly (`agents/sar_generator.py`) -/

/-- One entry of `format_transaction_history_tool` (`i` is the 1-based
position; Python's decimal `{:,.2f}` amount formatting is rendered through
`toString`). -/
def renderTx (i : ℕ) (tx : Transaction) : String :=
  "\nTransaction " ++ toString i ++ ":\n- From: " ++ tx.fromBank.getD "Unknown"
    ++ " (Account: " ++ tx.account.getD "Unknown" ++ ")\n- To: "
    ++ tx.toBank.getD "Unknown" ++ " (Account: "
    ++ tx.accountDest.getD "Unknown" ++ ")\n- Amount: $"
    ++ toString (tx.amountReceived.getD 0) ++ " "
    ++ tx.receivingCurrency.getD "USD" ++ "\n- Format: "
    ++ tx.paymentFormat.getD "Unknown" ++ "\n- Date: "
    ++ tx.timestamp.getD "Unknown" ++ "\n"

/-- The `enumerate(transactions, 1)` rendering loop. -/
def renderHistoryFrom : ℕ → List Transaction → List String
  | _, [] => []
  | i, tx :: txs => renderTx i tx :: renderHistoryFrom (i + 1) txs

/-- `format_transaction_history_tool`: the fixed no-history sentence for an
empty sequence, otherwise the joined per-transaction blocks. -/
def format_transaction_history (txs : List Transaction) : String :=
  match txs with
  | [] => "No transaction history available."
  | _ :: _ => String.intercalate "\n" (renderHistoryFrom 1 txs)

/-- The SAR prompt of `generate_sar_report_tool` (boilerplate text
abbreviated; the fields interpolated are the ones the source reads). -/
def mkPrompt (tx : Transaction) (historyText : String) (conf : ℚ) : String :=
  "Generate a comprehensive Suspicious Activity Report (SAR)"
    ++ " Account: " ++ tx.account.getD "Unknown"
    ++ " From Bank: " ++ tx.fromBank.getD "Unknown"
    ++ " To Bank: " ++ tx.toBank.getD "Unknown"
    ++ " Amount: $" ++ toString (tx.amountReceived.getD 0) ++ " "
    ++ tx.receivingCurrency.getD "USD"
    ++ " Payment Format: " ++ tx.paymentFormat.getD "Unknown"
    ++ " ML Confidence: " ++ toString conf
    ++ " HISTORY: " ++ historyText

/-- `generate_sar_report_tool`: call the narrative endpoint; a raised
exception is caught and turned into the placeholder narrative
`"Error generating SAR report: " + str(e)`. -/
def generate_sar_report_tool (gen : String → Except String String)
    (tx : Transaction) (historyText : String) (conf : ℚ) : String :=
  match gen (mkPrompt tx historyText conf) with
  | Except.ok content => content
  | Except.error e => "Error generating SAR report: " ++ e

/-- The report dictionary built by `save_sar_report_tool` (`now` is
`datetime.utcnow()`; `flagged_transaction_id` is `str(tx['_id'])`). -/
def sar_data_doc (tx : Transaction) (sarContent : String) (conf : ℚ)
    (accountId : String) (now : String) : SarDoc :=
  [("account_id", BVal.s accountId),
   ("flagged_transaction_id", BVal.s tx.id),
   ("from_bank", BVal.s (tx.fromBank.getD "")),
   ("to_bank", BVal.s (tx.toBank.getD "")),
   ("amount", BVal.q (tx.amountReceived.getD 0)),
   ("currency", BVal.s (tx.receivingCurrency.getD "")),
   ("payment_format", BVal.s (tx.paymentFormat.getD "")),
   ("ml_confidence", BVal.q conf),
   ("sar_content", BVal.s sarContent),
   ("created_at", BVal.s now),
   ("status", BVal.s "PENDING_REVIEW")]

/-- `save_sar_report_tool`: build the report dictionary and persist it
(the insert itself is infallible in the store model, so the tool's
`except` branch that returns `""` is unreachable here). -/
def save_sar_report_tool (reports : List SarDoc) (tx : Transaction)
    (sarContent : String) (conf : ℚ) (accountId : String) (now : String) :
    List SarDoc × String :=
  save_sar_report reports (sar_data_doc tx sarContent conf accountId now)

/-- `SARAgent._agent_node`: look up the account history
(`get_account_history_tool`), format it, generate the narrative (recovering
locally from a narrative failure), and persist the report.  Returns the
updated store, the new report identifier, and the narrative text. -/
def agent_node (store : Store) (tx : Transaction) (conf : ℚ)
    (gen : String → Except String String) (now : String) :
    Store × String × String :=
  let accountId := tx.account.getD "Unknown"
  let history := get_account_transactions store.transactions accountId 10
  let historyText := format_transaction_history history
  let content := generate_sar_report_tool gen tx historyText conf
  let (reports, sarId) :=
    save_sar_report_tool store.sarReports tx content conf accountId now
  ({ store with sarReports := reports }, sarId, content)

/-! ## Workflow branching (`workflows/aml_workflow.py`) and the driver
(`main.py`) -/

/-- `AMLWorkflow.should_generate_sar`: route on the detector's
`requires_investigation` flag. -/
def should_generate_sar (requiresInvestigation : Bool) : String :=
  if requiresInvestigation then "generate_sar" else "clean"

/-- One triage cycle from a fetched transaction, as wired by the LangGraph
workflow: encode (`prepare_transaction_for_ml`), score
(`predict_money_laundering`), mark processed (in `MLDetectorAgent.__call__`,
regardless of the verdict), then branch via `should_generate_sar` into the
SAR agent node or terminate.  Returns the updated store and the verdict. -/
def triage_cycle (store : Store) (model : Option MLModel) (tx : Transaction)
    (gen : String → Except String String) (now : String) : Store × Verdict :=
  let features := prepare_transaction_for_ml tx
  let verdict := predict_money_laundering model features
  let store1 :=
    { store with
      transactions := mark_transaction_processed store.transactions tx.id }
  let store2 :=
    if should_generate_sar verdict.is_laundering = "generate_sar" then
      (agent_node store1 tx verdict.confidence gen now).1
    else store1
  (store2, verdict)

/-- The driver's per-cycle counters (`AMLSimulation.stats` in `main.py`). -/
structure SimStats where
  processed : ℕ
  suspicious : ℕ
  clean : ℕ
  sars_generated : ℕ
  errors : ℕ
  deriving DecidableEq, Repr

/-- `AMLSimulation.process_single_transaction` of `main.py`: given the
scoring outcome `mlResult` for `tx`, either return early on an error
verdict (counting it, without touching the store), or branch on
`is_laundering` (SAR generation for suspicious, a counter for clean) and
finally mark the transaction processed. -/
def process_single_transaction (store : Store) (stats : SimStats)
    (tx : Transaction) (mlResult : Verdict)
    (gen : String → Except String String) (now : String) : Store × SimStats :=
  match mlResult.error with
  | some _ => (store, { stats with errors := stats.errors + 1 })
  | none =>
    let (store1, stats1) :=
      if mlResult.is_laundering then
        let (store', sarId, _) := agent_node store tx mlResult.confidence gen now
        (store',
         { stats with
           suspicious := stats.suspicious + 1,
           sars_generated :=
             if sarId ≠ "" then stats.sars_generated + 1
             else stats.sars_generated })
      else
        (store, { stats with clean := stats.clean + 1 })
    ({ store1 with
       transactions := mark_transaction_processed store1.transactions tx.id },
     { stats1 with processed := stats1.processed + 1 })

/-! ## Two racing cycles over the shared store

An interleaving model for the concurrency claim: each of two workers runs
one cycle, split into its two store accesses — the fetch
(`get_unprocessed_transactions(limit=1)`) and the later mark
(`mark_transaction_processed`) — exactly as the source performs them as
two separate store calls. -/

/-- The two workers. -/
inductive Wid where
  | a
  | b
  deriving DecidableEq, Repr

/-- Shared store plus each worker's fetched batch (`none` before its
fetch step has run). -/
structure RaceState where
  txs : List Transaction
  fetchedA : Option (List Transaction)
  fetchedB : Option (List Transaction)
  deriving DecidableEq, Repr

/-- Read a worker's fetched batch. -/
def fetchedOf (s : RaceState) : Wid → Option (List Transaction)
  | Wid.a => s.fetchedA
  | Wid.b => s.fetchedB

/-- One store access by one worker. -/
inductive Act where
  | fetch : Wid → Act
  | mark : Wid → Act
  deriving DecidableEq, Repr

/-- Execute one store access: `fetch` runs
`get_unprocessed_transactions(limit=1)` and records the batch with the
worker; `mark` runs `mark_transaction_processed` on the identifier of the
worker's fetched transaction (a no-op if its batch was empty). -/
def doAct (s : RaceState) : Act → RaceState
  | Act.fetch Wid.a =>
    { s with fetchedA := some (get_unprocessed_transactions s.txs 1) }
  | Act.fetch Wid.b =>
    { s with fetchedB := some (get_unprocessed_transactions s.txs 1) }
  | Act.mark w =>
    match fetchedOf s w with
    | some (tx :: _) =>
      { s with txs := mark_transaction_processed s.txs tx.id }
    | _ => s

/-- Run a schedule (an interleaving of the two workers' accesses). -/
def runSched (s : RaceState) (sched : List Act) : RaceState :=
  sched.foldl doAct s

/-- Whether worker `w` ended up processing `tx`: `tx` is in the batch the
worker fetched and went on to score and mark. -/
def processedBy (s : RaceState) (w : Wid) (tx : Transaction) : Bool :=
  match fetchedOf s w with
  | some l => decide (tx ∈ l)
  | none => false

/-- The racing interleaving: both workers fetch before either marks. -/
def racingSched : List Act :=
  [Act.fetch Wid.a, Act.fetch Wid.b, Act.mark Wid.a, Act.mark Wid.b]

/-- The non-overlapping interleaving: worker `a` completes its cycle
before worker `b` starts. -/
def sequentialSched : List Act :=
  [Act.fetch Wid.a, Act.mark Wid.a, Act.fetch Wid.b, Act.mark Wid.b]

/-! ## Concrete fixtures -/

/-- A concrete unprocessed transaction (the spec's scenario transaction). -/
def tx0 : Transaction :=
  { id := "T1", account := some "ACC1", accountDest := some "ACC2",
    fromBank := some "Bank_A", toBank := some "Bank_B",
    amountReceived := some 9500, amountPaid := some 9500,
    paymentFormat := some "Wire", receivingCurrency := some "USD",
    paymentCurrency := some "USD",
    timestamp := some "2025-06-15T14:30:05Z", processed := false }

/-- A second unprocessed transaction with a distinct identifier. -/
def tx1 : Transaction :=
  { id := "T2", account := some "ACC9", accountDest := some "ACC2",
    fromBank := some "Bank_C", toBank := some "Bank_B",
    amountReceived := some 120, amountPaid := some 120,
    paymentFormat := some "ACH", receivingCurrency := some "USD",
    paymentCurrency := some "USD",
    timestamp := some "2025-06-16T09:00:00Z", processed := false }

/-- A store holding only `tx0`, with no reports yet. -/
def store0 : Store := { transactions := [tx0], sarReports := [] }

/-- Zeroed driver counters. -/
def stats0 : SimStats :=
  { processed := 0, suspicious := 0, clean := 0, sars_generated := 0,
    errors := 0 }

/-- A narrative endpoint that always succeeds. -/
def gen0 : String → Except String String := fun _ => Except.ok "NARRATIVE"

/-- A loaded model that always predicts label 0 (clean). -/
def cleanModel : MLModel :=
  { predict := fun _ => Except.ok 0, predictProba := none }

/-- A loaded model that always predicts label 1 (laundering). -/
def launderingModel : MLModel :=
  { predict := fun _ => Except.ok 1, predictProba := none }

/-! ## Claim theorems -/

/-- C1: the feature-encoding step is claimed to return an ordered sequence
of exactly 7 real numbers for every valid transaction; the source's
`prepare_transaction_for_ml` in fact returns 8 (amount received, amount
paid, payment-format code, two bank-risk scores, hour, day-of-week, and a
currency-mismatch flag), so the downstream detector's 7-feature
expectation truncates the last one on every call. -/
theorem prepare_transaction_for_ml_length (tx : Transaction) :
    (prepare_transaction_for_ml tx).length = 8 := rfl

/-- C2: the claim says a verdict with the error field set still gets the
transaction marked processed; `main.py`'s `process_single_transaction`
instead returns early on an error verdict, before the
`mark_transaction_processed` call, leaving the store untouched (only the
error counter moves), so the transaction stays unprocessed. -/
theorem process_single_transaction_error_skips_marking (store : Store)
    (stats : SimStats) (tx : Transaction) (v : Verdict)
    (gen : String → Except String String) (now : String)
    (h : v.error.isSome = true) :
    (process_single_transaction store stats tx v gen now).1 = store ∧
    (process_single_transaction store stats tx v gen now).2
      = { stats with errors := stats.errors + 1 } := by
  cases he : v.error with
  | none => rw [he] at h; simp at h
  | some e => exact ⟨by simp [process_single_transaction, he],
      by simp [process_single_transaction, he]⟩

/-- Witness for C2's theorem at a concrete erroring verdict. -/
theorem process_single_transaction_error_skips_marking_witness :
    (process_single_transaction store0 stats0 tx0
        { is_laundering := false, confidence := 0, prediction_value := none,
          error := some "Model not loaded" } gen0 "t").1 = store0 ∧
    (process_single_transaction store0 stats0 tx0
        { is_laundering := false, confidence := 0, prediction_value := none,
          error := some "Model not loaded" } gen0 "t").2
      = { stats0 with errors := stats0.errors + 1 } :=
  process_single_transaction_error_skips_marking store0 stats0 tx0 _ gen0 "t"
    rfl

/-- C3: `predict_money_laundering` never raises — the model-not-loaded
case and every exception of the scoring body are converted into a verdict
with the error field set, `is_laundering = false` and `confidence = 0.0`;
moreover whenever the returned verdict has its error field set, the two
fields carry exactly those defaults. -/
theorem predict_money_laundering_error_handling (model : Option MLModel)
    (features : List ℚ) :
    (model = none →
      predict_money_laundering model features =
        { is_laundering := false, confidence := 0, prediction_value := none,
          error := some "Model not loaded" }) ∧
    (∀ m e, model = some m → scoreBody m features = Except.error e →
      predict_money_laundering model features =
        { is_laundering := false, confidence := 0, prediction_value := none,
          error := some e }) ∧
    (∀ e, (predict_money_laundering model features).error = some e →
      (predict_money_laundering model features).is_laundering = false ∧
      (predict_money_laundering model features).confidence = 0) := by
  refine ⟨?_, ?_, ?_⟩
  · intro h; rw [h]; rfl
  · intro m e hm hs
    rw [hm]
    simp [predict_money_laundering, hs]
  · intro e he
    cases model with
    | none => exact ⟨rfl, rfl⟩
    | some m =>
      cases hs : scoreBody m features with
      | ok v =>
        simp [predict_money_laundering, hs] at he
        exact absurd (he ▸ scoreBody_ok_error_none m features v hs) (by simp)
      | error msg =>
        simp [predict_money_laundering, hs]

/-- Witness for C3's theorem: a model whose scoring call raises, and the
model-not-loaded case. -/
theorem predict_money_laundering_error_handling_witness :
    predict_money_laundering (some throwingModel) [1, 2] =
      { is_laundering := false, confidence := 0, prediction_value := none,
        error := some "boom" } ∧
    predict_money_laundering none [] =
      { is_laundering := false, confidence := 0, prediction_value := none,
        error := some "Model not loaded" } :=
  ⟨(predict_money_laundering_error_handling (some throwingModel) [1, 2]).2.1
      throwingModel "boom" rfl rfl,
   (predict_money_laundering_error_handling none []).1 rfl⟩

/-- C4 counterexample: the claim says the history retrieval never
includes the transaction currently being triaged; with `tx0` the single
unprocessed transaction being triaged, `get_account_transactions` on its
own account returns a list containing `tx0` itself — the query has no
exclusion clause. -/
theorem get_account_transactions_includes_triaged :
    get_unprocessed_transactions store0.transactions 1 = [tx0] ∧
    tx0 ∈ get_account_transactions store0.transactions "ACC1" 10 := by
  exact ⟨rfl, by decide⟩

/-- C4 amended: `get_account_transactions` returns at most `limit`
transactions for the account, most-recent-first by timestamp, and an empty
sequence (never an error) when the account has no history — but it does
not exclude the transaction currently being triaged, which can occur in
its own history result. -/
theorem get_account_transactions_contract (txs : List Transaction)
    (accountId : String) (limit : ℕ) :
    (get_account_transactions txs accountId limit).length ≤ limit ∧
    (get_account_transactions txs accountId limit).Pairwise moreRecent ∧
    ((∀ t ∈ txs, t.account ≠ some accountId) →
      get_account_transactions txs accountId limit = []) ∧
    (∃ (l : List Transaction) (tx : Transaction),
      tx ∈ get_unprocessed_transactions l 1 ∧
      tx ∈ get_account_transactions l (tx.account.getD "") 10) := by
  refine ⟨?_, ?_, ?_, ?_⟩
  · simp [get_account_transactions]
  · exact List.Pairwise.sublist (List.take_sublist _ _) (pairwise_sortDesc _)
  · intro h
    have hf : txs.filter (fun t => t.account = some accountId) = [] := by
      rw [List.filter_eq_nil_iff]
      intro t ht
      simpa using h t ht
    simp [get_account_transactions, hf, sortDesc]
  · exact ⟨[tx0], tx0, by decide, by decide⟩

/-- Witness for C4's amended theorem at a concrete account with no
history. -/
theorem get_account_transactions_contract_witness :
    get_account_transactions [tx0] "NOACC" 10 = [] :=
  (get_account_transactions_contract [tx0] "NOACC" 10).2.2.1 (by decide)

/-- C5 counterexample: the claim says every persisted report carries a
confidence-derived risk_level; the report dictionary built by
`save_sar_report_tool` — here at confidence 0.9, which the claim says
must yield HIGH — has no risk_level key at all. -/
theorem sar_doc_has_no_risk_level :
    (sar_data_doc tx0 "SAR narrative" (9 / 10) "ACC1" "t0").lookup
        "risk_level" = none := by
  decide

/-- C5 amended: persisted reports carry no risk_level field; every report
dictionary has exactly the fixed key set, stores the raw classifier
confidence under ml_confidence, and a constant status PENDING_REVIEW. -/
theorem sar_data_doc_fields (tx : Transaction) (content : String) (conf : ℚ)
    (accId now : String) :
    (sar_data_doc tx content conf accId now).lookup "risk_level" = none ∧
    (sar_data_doc tx content conf accId now).lookup "status"
      = some (BVal.s "PENDING_REVIEW") ∧
    (sar_data_doc tx content conf accId now).lookup "ml_confidence"
      = some (BVal.q conf) ∧
    (sar_data_doc tx content conf accId now).map Prod.fst =
      ["account_id", "flagged_transaction_id", "from_bank", "to_bank",
       "amount", "currency", "payment_format", "ml_confidence",
       "sar_content", "created_at", "status"] := by
  refine ⟨?_, ?_, ?_, rfl⟩ <;> simp [sar_data_doc, List.lookup]

/-- C7: `mark_transaction_processed` is idempotent — a second call on the
same identifier is a no-op (the store state after two calls equals the
state after one, with no error), and after one call the stored document
found under that identifier has `processed = true`. -/
theorem mark_transaction_processed_idempotent (l : List Transaction)
    (i : String) :
    mark_transaction_processed (mark_transaction_processed l i) i
        = mark_transaction_processed l i ∧
    (((mark_transaction_processed l i).find? fun t => t.id == i).all
        fun t => t.processed) = true := by
  induction l with
  | nil => exact ⟨rfl, rfl⟩
  | cons t ts ih =>
    by_cases h : t.id = i
    · constructor
      · simp [mark_transaction_processed, h]
      · simp [mark_transaction_processed, h, List.find?]
    · constructor
      · simp [mark_transaction_processed, h, ih.1]
      · simpa [mark_transaction_processed, h, List.find?] using ih.2

/-- C6: in a completed triage cycle, a verdict with
`is_laundering = false` creates no investigation report, and a verdict
with `is_laundering = true` creates exactly one report, which references
the triggering transaction's identifier under `flagged_transaction_id`. -/
theorem triage_cycle_sar_branch (store : Store) (model : Option MLModel)
    (tx : Transaction) (gen : String → Except String String) (now : String) :
    ((triage_cycle store model tx gen now).2.is_laundering = false →
      (triage_cycle store model tx gen now).1.sarReports
        = store.sarReports) ∧
    ((triage_cycle store model tx gen now).2.is_laundering = true →
      ∃ d, (triage_cycle store model tx gen now).1.sarReports
          = store.sarReports ++ [d] ∧
        d.lookup "flagged_transaction_id" = some (BVal.s tx.id)) := by
  constructor
  · intro h
    simp only [triage_cycle] at h ⊢
    simp [should_generate_sar, h]
  · intro h
    simp only [triage_cycle] at h ⊢
    refine ⟨sar_data_doc tx
        (generate_sar_report_tool gen tx
          (format_transaction_history
            (get_account_transactions
              (mark_transaction_processed store.transactions tx.id)
              (tx.account.getD "Unknown") 10))
          (predict_money_laundering model
            (prepare_transaction_for_ml tx)).confidence)
        (predict_money_laundering model
          (prepare_transaction_for_ml tx)).confidence
        (tx.account.getD "Unknown") now, ?_, ?_⟩
    · simp [should_generate_sar, h, agent_node, save_sar_report_tool,
        save_sar_report]
    · simp [sar_data_doc, List.lookup]

/-- Witness for C6's theorem: a clean verdict leaves the report collection
unchanged; a laundering verdict appends exactly one report referencing
`tx0`. -/
theorem triage_cycle_sar_branch_witness :
    (triage_cycle store0 (some cleanModel) tx0 gen0 "t").1.sarReports
      = store0.sarReports ∧
    ∃ d, (triage_cycle store0 (some launderingModel) tx0 gen0 "t").1.sarReports
        = store0.sarReports ++ [d] ∧
      d.lookup "flagged_transaction_id" = some (BVal.s tx0.id) :=
  ⟨(triage_cycle_sar_branch store0 (some cleanModel) tx0 gen0 "t").1
      (by decide),
   (triage_cycle_sar_branch store0 (some launderingModel) tx0 gen0 "t").2
      (by decide)⟩

/-- C8: the SAR agent node persists the report no matter how the
narrative call turns out — on a narrative failure the saved report carries
the placeholder text "Error generating SAR report: " followed by the
error, and for every narrative outcome exactly one report is appended. -/
theorem agent_node_persists_on_narrative_failure (store : Store)
    (tx : Transaction) (conf : ℚ) (now e : String) :
    (agent_node store tx conf (fun _ => Except.error e) now).1.sarReports
      = store.sarReports ++
        [sar_data_doc tx ("Error generating SAR report: " ++ e) conf
          (tx.account.getD "Unknown") now] ∧
    ∀ gen : String → Except String String,
      (agent_node store tx conf gen now).1.sarReports.length
        = store.sarReports.length + 1 := by
  constructor
  · simp [agent_node, generate_sar_report_tool, save_sar_report_tool,
      save_sar_report]
  · intro gen
    simp [agent_node, save_sar_report_tool, save_sar_report]

/-- C9 counterexample: the fetch and mark are two separate store calls,
so in the interleaving where both cycles fetch before either marks, both
workers fetch — and hence process — the same transaction `tx0`,
violating exactly-one-cycle-per-transaction. -/
theorem racing_cycles_double_process :
    processedBy (runSched ⟨[tx0], none, none⟩ racingSched) Wid.a tx0
        = true ∧
    processedBy (runSched ⟨[tx0], none, none⟩ racingSched) Wid.b tx0
        = true := by
  decide

/-- A transaction that is a member of the store after its own identifier
was marked must carry `processed = true`, provided store identifiers are
unique. -/
lemma mem_mark_self {l : List Transaction} {tx : Transaction}
    (hn : (l.map Transaction.id).Nodup)
    (hmem : tx ∈ mark_transaction_processed l tx.id) (htx : tx ∈ l) :
    tx.processed = true := by
  induction l with
  | nil => simp [mark_transaction_processed] at hmem
  | cons t ts ih =>
    have hn' : (∀ x ∈ ts, ¬x.id = t.id) ∧ (ts.map Transaction.id).Nodup := by
      simpa using hn
    by_cases h : t.id = tx.id
    · simp only [mark_transaction_processed, if_pos h] at hmem
      rcases List.mem_cons.mp hmem with he | hm
      · rw [he]
      · exact absurd h.symm (hn'.1 tx hm)
    · simp only [mark_transaction_processed, if_neg h] at hmem
      rcases List.mem_cons.mp hmem with he | hm
      · exact absurd (he ▸ rfl) h
      · rcases List.mem_cons.mp htx with he | ht
        · exact absurd (he ▸ rfl) h
        · exact ih hn'.2 hm ht

/-- C9 amended: the store's fetch-one-unprocessed and mark steps are
separate calls, not an atomic conditional update, so two racing cycles
can both process one transaction; exactly-one-cycle-per-transaction holds
only for non-overlapping cycles — with store-unique identifiers, when
worker a's whole cycle precedes worker b's, a transaction processed by
worker a is not processed by worker b. -/
theorem sequential_cycles_process_exclusively (txs : List Transaction)
    (tx : Transaction) (hn : (txs.map Transaction.id).Nodup)
    (ha : processedBy (runSched ⟨txs, none, none⟩ sequentialSched) Wid.a tx
      = true) :
    processedBy (runSched ⟨txs, none, none⟩ sequentialSched) Wid.b tx
      = false := by
  rcases hf : get_unprocessed_transactions txs 1 with _ | ⟨u, rest⟩
  · simp [runSched, sequentialSched, doAct, fetchedOf, processedBy, hf] at ha
  · have hrest : rest = [] := by
      have hlen := congrArg List.length hf
      simp [get_unprocessed_transactions, List.length_take] at hlen
      have : rest.length = 0 := by omega
      exact List.length_eq_zero.mp this
    subst hrest
    have hu : u ∈ get_unprocessed_transactions txs 1 := by
      rw [hf]; exact List.mem_cons_self u []
    rcases hg : get_unprocessed_transactions
        (mark_transaction_processed txs u.id) 1 with _ | ⟨w, wrest⟩
    · simp [runSched, sequentialSched, doAct, fetchedOf, processedBy,
        hf, hg]
    · simp only [runSched, sequentialSched, List.foldl_cons,
        List.foldl_nil, doAct, fetchedOf, hf, hg, processedBy] at ha ⊢
      have htxu : tx = u := by simpa using ha
      subst htxu
      have hmemf := List.mem_filter.mp (List.take_subset 1 _ hu)
      simp only [decide_eq_true_eq] at hmemf
      simp only [decide_eq_false_iff_not]
      intro hmem
      have hmem' := List.mem_filter.mp
        (List.take_subset 1 _ (hg ▸ hmem :
          tx ∈ get_unprocessed_transactions
            (mark_transaction_processed txs tx.id) 1))
      simp only [decide_eq_true_eq] at hmem'
      have := mem_mark_self hn hmem'.1 hmemf.1
      rw [this] at hmem'
      exact absurd hmem'.2 (by simp)

/-- Witness for C9's amended theorem on a concrete two-transaction
store. -/
theorem sequential_cycles_process_exclusively_witness :
    processedBy (runSched ⟨[tx0, tx1], none, none⟩ sequentialSched) Wid.b tx0
      = false :=
  sequential_cycles_process_exclusively [tx0, tx1] tx0 (by decide) (by decide)

/-- The stamped records of `load_csv_to_mongo`, pointwise: record `i`
keeps its fields except `processed := False` and the timestamp overwritten
with the clock value of iteration `i`. -/
lemma stampFrom_getElem? (clock : ℕ → String) (n : ℕ)
    (rs : List Transaction) (i : ℕ) :
    (stampFrom clock n rs)[i]?
      = rs[i]?.map fun r =>
          { r with processed := false, timestamp := some (clock (n + i)) } := by
  induction rs generalizing n i with
  | nil => simp [stampFrom]
  | cons r rs ih =>
    cases i with
    | zero => simp [stampFrom]
    | succ j =>
      have harith : n + 1 + j = n + (j + 1) := by omega
      simp only [stampFrom, List.getElem?_cons_succ]
      rw [ih (n + 1) j]
      simp [harith]

/-- The stamping loop preserves the record count. -/
lemma stampFrom_length (clock : ℕ → String) (n : ℕ)
    (rs : List Transaction) :
    (stampFrom clock n rs).length = rs.length := by
  induction rs generalizing n with
  | nil => rfl
  | cons r rs ih => simp [stampFrom, ih]

/-- C10: every record ingested by `load_csv_to_mongo` is stored with
`processed = false` and with its Timestamp field replaced by the
ingestion-time clock value of its iteration — the original CSV timestamp
is discarded — and the returned count is the number of records. -/
theorem load_csv_to_mongo_stamps (store : Store)
    (records : List Transaction) (clock : ℕ → String) (i : ℕ) :
    ((load_csv_to_mongo store records clock).1.transactions.drop
        store.transactions.length)[i]?
      = records[i]?.map (fun r =>
          { r with processed := false, timestamp := some (clock i) }) ∧
    (load_csv_to_mongo store records clock).2 = records.length := by
  constructor
  · simp only [load_csv_to_mongo, List.drop_left]
    simpa using stampFrom_getElem? clock 0 records i
  · simp [load_csv_to_mongo, stampFrom_length]

end AML
